import Mathlib

/-!
# Verification of the Chi-Town Sentinel data pipeline (`src/ProjectG5.py`)

Shallow embedding of the data-transformation and aggregation pipeline of the
crime-analysis dashboard.  A source table is a `List RawRecord`; `load_data`
performs the feature derivation of the Python `load_data` (lines 21-31),
`filtered_df` the year-range filter (line 45), and the aggregators
`y_counts`, `d_counts`, `map_df`, `arrest_rate`, `ct_time`, `corr_matrix`
the six chart queries (lines 56, 60, 67, 79-80, 85, 91-92).

Conventions of the embedding:
* A missing / unparsable value (pandas `NaN` / `NaT`) is `Option.none`.
* Python float comparisons `a <= NaN < b` are `False`; the embedding makes
  every such comparison on a `none` value explicitly `false`.
* pandas `groupby` / `value_counts` sort their keys (`sort=True` default and
  `.sort_index()`); the embedding sorts with `List.insertionSort`, which is
  stable, matching pandas' stable ordering on ties.
* `DataFrame.sample(n)` (without `replace=True`) raises a `ValueError` when
  `n` exceeds the population; the embedding returns `Except.error` in exactly
  that case, and models the random draw by an arbitrary fixed selection of
  `n` of the rows (the verified properties are invariant under which rows a
  uniform draw returns, only the size condition matters).
-/

/-- The fields of a parsed `Date` timestamp that the pipeline reads
(`dt.year`, `dt.month`, `dt.hour`). -/
structure Timestamp where
  year : Int
  month : Int
  hour : Int
deriving DecidableEq, Repr

/-- One row of the source CSV, with the columns the pipeline touches.
`date = none` models an unparsable `Date` (coerced to `NaT` by
`pd.to_datetime(..., errors="coerce")`); `latitude`/`longitude` may be
missing. -/
structure RawRecord where
  date : Option Timestamp
  primaryType : String
  district : Int
  communityArea : Int
  latitude : Option Int
  longitude : Option Int
  arrest : Bool
deriving DecidableEq, Repr

/-- The `Time_Period` lambda of `load_data` (lines 27-31):

    lambda x: "Early Morning (0-6)" if 0<=x<6 else
              "Morning (6-12)"      if 6<=x<12 else
              "Afternoon (12-18)"   if 12<=x<18 else "Night (18-24)"

The argument is the `Hour` column, which is `NaN` for rows whose `Date`
failed to parse; every comparison against `NaN` is `False` in Python, so a
`none` hour falls through all three guards into the catch-all bucket. -/
def timePeriod : Option Int → String
  | none => "Night (18-24)"
  | some h =>
    if 0 ≤ h ∧ h < 6 then "Early Morning (0-6)"
    else if 6 ≤ h ∧ h < 12 then "Morning (6-12)"
    else if 12 ≤ h ∧ h < 18 then "Afternoon (12-18)"
    else "Night (18-24)"

/-- A row of the derived table produced by `load_data`: the raw columns plus
`Year`, `Month`, `Hour` (undefined when `Date` is `NaT`) and the total
`Time_Period` column. -/
structure Record where
  date : Option Timestamp
  year : Option Int
  month : Option Int
  hour : Option Int
  timePeriod : String
  primaryType : String
  district : Int
  communityArea : Int
  latitude : Option Int
  longitude : Option Int
  arrest : Bool
deriving DecidableEq, Repr

/-- The per-row feature derivation of `load_data` (lines 21-31): extract
`Year`, `Month`, `Hour` from the (possibly unparsed) `Date` and apply the
`Time_Period` lambda to the `Hour`. -/
def deriveRecord (r : RawRecord) : Record :=
  { date := r.date
    year := r.date.map Timestamp.year
    month := r.date.map Timestamp.month
    hour := r.date.map Timestamp.hour
    timePeriod := timePeriod (r.date.map Timestamp.hour)
    primaryType := r.primaryType
    district := r.district
    communityArea := r.communityArea
    latitude := r.latitude
    longitude := r.longitude
    arrest := r.arrest }

/-- `load_data` (lines 12-32), restricted to its in-scope part: the CSV rows
are given, the derivation is applied row by row, no row is dropped. -/
def load_data (rows : List RawRecord) : List Record :=
  rows.map deriveRecord

/-- `df['Year'] >= a` on a possibly-`NaN` year: `False` for `NaN`. -/
def yearGe (x : Option Int) (a : Int) : Bool :=
  match x with
  | none => false
  | some y => a ≤ y

/-- `df['Year'] <= b` on a possibly-`NaN` year: `False` for `NaN`. -/
def yearLe (x : Option Int) (b : Int) : Bool :=
  match x with
  | none => false
  | some y => y ≤ b

/-- Line 45: `filtered_df = df[(df['Year'] >= a) & (df['Year'] <= b)]`. -/
def filtered_df (df : List Record) (a b : Int) : List Record :=
  df.filter (fun r => yearGe r.year a && yearLe r.year b)

/-- Lexicographic comparison of character lists by code point. -/
def charListLe : List Char → List Char → Bool
  | [], _ => true
  | _ :: _, [] => false
  | a :: as, b :: bs =>
    if a < b then true else if b < a then false else charListLe as bs

/-- The string order by which pandas sorts group keys and axis labels:
code-point lexicographic (the order of Python `str` and of `String.le`,
phrased on the character data so that it evaluates). -/
def strLe (s t : String) : Prop := charListLe s.data t.data = true

instance : DecidableRel strLe := fun s t => by unfold strLe; infer_instance

/-- Line 56: `filtered_df['Year'].value_counts().sort_index()` — the count of
rows per `Year` value (`value_counts` drops `NaN` keys), indexed by year in
ascending order. -/
def y_counts (df : List Record) : List (Int × Nat) :=
  (List.insertionSort (· ≤ ·) (df.filterMap Record.year).dedup).map
    (fun y => (y, df.countP (fun r => decide (r.year = some y))))

/-- Line 60: `filtered_df['District'].value_counts().head(15)` — districts
with their row counts, most frequent first (stable on ties), truncated to 15. -/
def d_counts (df : List Record) : List (Int × Nat) :=
  ((List.insertionSort
      (fun x y => df.countP (fun r => decide (r.district = y)) ≤
                  df.countP (fun r => decide (r.district = x)))
      (df.map Record.district).dedup).map
    (fun d => (d, df.countP (fun r => decide (r.district = d))))).take 15

/-- The `ValueError` message `DataFrame.sample` raises when asked for more
rows than exist (with the default `replace=False`). -/
def sampleError : String := "Cannot take a larger sample than population"

/-- `DataFrame.sample(n)` with default `replace=False`: errors when `n`
exceeds the population, otherwise returns `n` of the rows.  The random draw
is modelled by a fixed selection (`take n`); every property verified below is
invariant under which `n` rows a uniform draw picks. -/
def pdSample (l : List Record) (n : Nat) : Except String (List Record) :=
  if l.length < n then .error sampleError else .ok (l.take n)

/-- Line 67:
`map_df = filtered_df.dropna(subset=['Latitude','Longitude']).sample(min(20000, len(filtered_df)))`.
Note the sample size is `min(20000, len(filtered_df))` — measured on the
frame BEFORE the `dropna`, while the population sampled is the frame after. -/
def map_df (df : List Record) : Except String (List Record) :=
  pdSample (df.filter (fun r => r.latitude.isSome && r.longitude.isSome))
    (min 20000 df.length)

/-- Lines 79-80: `filtered_df.groupby("Time_Period")["Arrest"].mean() * 100` —
for each `Time_Period` value present (groupby sorts keys lexicographically),
the fraction of rows in the group with `Arrest = True`, times 100. -/
def arrest_rate (df : List Record) : List (String × ℚ) :=
  (List.insertionSort strLe (df.map Record.timePeriod).dedup).map
    (fun p =>
      let g := df.filter (fun r => decide (r.timePeriod = p))
      (p, 100 * ((g.countP Record.arrest : ℚ) / (g.length : ℚ))))

/-- Line 85: `pd.crosstab(filtered_df["Primary Type"].head(10), filtered_df["Time_Period"])`.
`.head(10)` keeps the index labels of the FIRST 10 rows only; after `crosstab`
aligns the two series on their index, every later row has a missing row key
and is dropped, so each cell counts the (type, period) pairs among the first
10 rows of the filtered frame. -/
def ct_time_cell (df : List Record) (t p : String) : Nat :=
  (df.take 10).countP (fun r => decide (r.primaryType = t ∧ r.timePeriod = p))

/-- Row labels of the line-85 crosstab: the distinct `Primary Type` values
among the first 10 rows (crosstab sorts its labels). -/
def ct_time_rowLabels (df : List Record) : List String :=
  List.insertionSort strLe ((df.take 10).map Record.primaryType).dedup

/-- Column labels of the line-85 crosstab: the distinct `Time_Period` values
among the first 10 rows. -/
def ct_time_colLabels (df : List Record) : List String :=
  List.insertionSort strLe ((df.take 10).map Record.timePeriod).dedup

/-- The pivot index of line 91,
`filtered_df.groupby(["Community Area","Hour","Primary Type"]).size().unstack(fill_value=0)`:
the distinct (CommunityArea, Hour) pairs among rows with a defined `Hour`
(groupby drops `NaN` keys).  The index order does not matter downstream:
Pearson correlation is invariant under a permutation of the rows, so the
embedding keeps first-encounter order. -/
def pivotKeys (df : List Record) : List (Int × Int) :=
  (df.filterMap (fun r => r.hour.map (fun h => (r.communityArea, h)))).dedup

/-- The columns of the line-91 pivot: the distinct `Primary Type` values
among rows with a defined `Hour`. -/
def pivotTypes (df : List Record) : List String :=
  ((df.filter (fun r => r.hour.isSome)).map Record.primaryType).dedup

/-- One cell of the line-91 pivot: the number of rows in the given
(CommunityArea, Hour, PrimaryType) group (`fill_value=0` makes absent
combinations 0, which this count already gives). -/
def pivotCount (df : List Record) (k : Int × Int) (t : String) : Nat :=
  df.countP (fun r => decide (r.communityArea = k.1 ∧ r.hour = some k.2 ∧ r.primaryType = t))

/-- The per-type count column of the line-91 pivot, over the whole pivot
index, as rationals. -/
def typeColumn (df : List Record) (t : String) : List ℚ :=
  (pivotKeys df).map (fun k => (pivotCount df k t : ℚ))

/-- Mean of a column (0 on the empty column, where it is never used). -/
def qmean (l : List ℚ) : ℚ := l.sum / (l.length : ℚ)

/-- Σ (xᵢ - x̄)(yᵢ - ȳ): the covariance sum of two equal-length columns. -/
def covSum (x y : List ℚ) : ℚ :=
  ((x.zip y).map (fun p => (p.1 - qmean x) * (p.2 - qmean y))).sum

/-- Σ (xᵢ - x̄)²: the variance sum of a column. -/
def varSum (x : List ℚ) : ℚ := covSum x x

/-- One cell of `DataFrame.corr()` (line 92), Pearson:
`r = covSum x y / √(varSum x · varSum y)`.  When either column has zero
variance (or is empty) the quotient is 0/0 and pandas yields `NaN`: the cell
is `none`.  Otherwise the cell is defined; since √ is irrational the
embedding carries the exact pair `(covSum x y, varSum x * varSum y)`, from
which `r = p.1 / √p.2` is determined, rather than an irrational value. -/
def corrCell (x y : List ℚ) : Option (ℚ × ℚ) :=
  if varSum x = 0 ∨ varSum y = 0 then none
  else some (covSum x y, varSum x * varSum y)

/-- Line 92: the (t, u) cell of `corr_matrix_data.corr()`. -/
def corr_matrix_cell (df : List Record) (t u : String) : Option (ℚ × ℚ) :=
  corrCell (typeColumn df t) (typeColumn df u)

/-! ## Spec-side definitions (for refinement comparisons only)

The two definitions below follow the SPEC's words, not the source; they
exist solely to state where the code diverges from the spec. -/

/-- Follows the spec's words (§3): "`TimePeriod`: one of four fixed
categorical buckets, assigned by `Hour`: `[0,6) → "Early Morning"`,
`[6,12) → "Morning"`, `[12,18) → "Afternoon"`, `[18,24) → "Night"`.
Records with undefined `Hour` get an undefined `TimePeriod`." -/
def timePeriodSpec : Option Int → Option String
  | none => none
  | some h =>
    if 0 ≤ h ∧ h < 6 then some "Early Morning"
    else if 6 ≤ h ∧ h < 12 then some "Morning"
    else if 12 ≤ h ∧ h < 18 then some "Afternoon"
    else if 18 ≤ h ∧ h < 24 then some "Night"
    else none

/-- Number of rows of `df` whose `Primary Type` is `t`. -/
def typeFreq (df : List Record) (t : String) : Nat :=
  df.countP (fun r => decide (r.primaryType = t))

/-- Follows the spec's words (§4.4): the 10 `PrimaryType` values that are
most frequent by raw count in the filtered set, ties broken by first
encounter (stable sort). -/
def top10Types (df : List Record) : List String :=
  (List.insertionSort (fun s t => typeFreq df t ≤ typeFreq df s)
    (df.map Record.primaryType).dedup).take 10

/-- Follows the spec's words (§4.4): a cell of the type × period crosstab
over the rows restricted to the 10 most frequent `PrimaryType` values:
the count of ALL filtered records with that (type, period) pair when the
type is among the top 10, otherwise absent (0). -/
def ct_time_spec_cell (df : List Record) (t p : String) : Nat :=
  if t ∈ top10Types df then
    df.countP (fun r => decide (r.primaryType = t ∧ r.timePeriod = p))
  else 0

/-! ## Concrete input tables used by witnesses and counterexamples -/

/-- A raw row with every incidental field fixed. -/
def mkRaw (d : Option Timestamp) (t : String) (arr : Bool) : RawRecord :=
  { date := d, primaryType := t, district := 1, communityArea := 1,
    latitude := some 41, longitude := some (-87), arrest := arr }

/-- The 3-row scenario table of spec §8: `Date` = 2020-01-01T02:00,
2020-06-15T14:00, unparsable; `Arrest` = true, false, true. -/
def scenarioRows : List RawRecord :=
  [mkRaw (some ⟨2020, 1, 2⟩) "THEFT" true,
   mkRaw (some ⟨2020, 6, 14⟩) "THEFT" false,
   mkRaw none "THEFT" true]

/-- A 12-row table: one "X" row followed by eleven "Y" rows, all with hour 2.
"Y" is the most frequent type but three of its rows lie beyond the first 10. -/
def prefixRows : List RawRecord :=
  mkRaw (some ⟨2020, 1, 2⟩) "X" true ::
    List.replicate 11 (mkRaw (some ⟨2020, 1, 2⟩) "Y" true)

/-- A 2-row derived table for the geo sampler: the second row is missing its
`Latitude`. -/
def geoBugRows : List Record :=
  load_data
    [mkRaw (some ⟨2020, 1, 2⟩) "THEFT" true,
     { mkRaw (some ⟨2020, 1, 3⟩) "THEFT" false with latitude := none }]

/-- A 1-row derived table: its only pivot column is constant, so its
variance over the pivot index is zero. -/
def constPivotRows : List Record :=
  load_data [mkRaw (some ⟨2020, 1, 2⟩) "A" true]

/-! ## Helper lemmas -/

/-- Pushing a sum through a pointwise addition of two maps. -/
lemma sum_map_add_nat {β : Type} (f g : β → ℕ) (ks : List β) :
    (ks.map (fun k => f k + g k)).sum = (ks.map f).sum + (ks.map g).sum := by
  induction ks with
  | nil => rfl
  | cons k ks ih => simp [ih]; omega

/-- An indicator summed over a list missing the value is 0. -/
lemma sum_ite_eq_zero {β : Type} [DecidableEq β] (v : β) (ks : List β) (h : v ∉ ks) :
    (ks.map (fun k => if v = k then 1 else 0)).sum = 0 := by
  induction ks with
  | nil => rfl
  | cons k ks ih =>
    simp only [List.mem_cons, not_or] at h
    simp [h.1, ih h.2]

/-- An indicator summed over a duplicate-free list containing the value is 1. -/
lemma sum_ite_eq_one {β : Type} [DecidableEq β] (v : β) (ks : List β)
    (hnd : ks.Nodup) (hv : v ∈ ks) :
    (ks.map (fun k => if v = k then 1 else 0)).sum = 1 := by
  induction ks with
  | nil => cases hv
  | cons k ks ih =>
    rcases List.mem_cons.mp hv with rfl | hv2
    · have hvk : v ∉ ks := (List.nodup_cons.mp hnd).1
      simp [sum_ite_eq_zero v ks hvk]
    · have hk : v ≠ k := by
        rintro rfl; exact (List.nodup_cons.mp hnd).1 hv2
      simp [hk, ih (List.nodup_cons.mp hnd).2 hv2]

/-- Partition-count: summing, over a duplicate-free list of keys covering a
list, the number of elements with each key, gives the length of the list. -/
lemma sum_countP_partition {α β : Type} [DecidableEq β] (key : α → β)
    (ks : List β) (hnd : ks.Nodup) (l : List α) (hcov : ∀ x ∈ l, key x ∈ ks) :
    (ks.map (fun k => l.countP (fun x => decide (key x = k)))).sum = l.length := by
  induction l with
  | nil => simp
  | cons x t ih =>
    have ihl := ih (fun z hz => hcov z (List.mem_cons_of_mem _ hz))
    have hx : key x ∈ ks := hcov x (List.mem_cons_self x t)
    simp only [List.countP_cons, decide_eq_true_eq]
    rw [sum_map_add_nat, ihl, sum_ite_eq_one (key x) ks hnd hx, List.length_cons]

/-! ## Claim theorems -/

/-- C4: for every defined integer hour `h` in `[0,24)`, the `Time_Period`
lambda assigns exactly one of the four buckets, by `0 ≤ h < 6 →` Early
Morning, `6 ≤ h < 12 →` Morning, `12 ≤ h < 18 →` Afternoon, `18 ≤ h < 24 →`
Night; the four ranges partition `[0,24)`, so in particular hour 6 maps to
Morning and never Early Morning. -/
theorem C4_timePeriod_partition (h : Int) (h0 : 0 ≤ h) (h24 : h < 24) :
    (timePeriod (some h) = "Early Morning (0-6)" ↔ 0 ≤ h ∧ h < 6) ∧
    (timePeriod (some h) = "Morning (6-12)" ↔ 6 ≤ h ∧ h < 12) ∧
    (timePeriod (some h) = "Afternoon (12-18)" ↔ 12 ≤ h ∧ h < 18) ∧
    (timePeriod (some h) = "Night (18-24)" ↔ 18 ≤ h ∧ h < 24) := by
  interval_cases h <;> decide

/-- C4 witness: hour 6 lands in the Morning bucket. -/
theorem C4_witness :
    timePeriod (some 6) = "Morning (6-12)" ↔ 6 ≤ (6 : Int) ∧ (6 : Int) < 12 :=
  (C4_timePeriod_partition 6 (by decide) (by decide)).2.1

/-- C9: the `Time_Period` lambda is total over its whole input domain,
including the undefined (`NaN`) hour: every record is assigned one of the
four bucket strings, and any input not matched by the three guarded ranges —
in particular a `NaN` hour, for which every guard comparison is `False` —
falls into the catch-all bucket `"Night (18-24)"`. -/
theorem C9_timePeriod_total :
    (∀ r : RawRecord,
        (deriveRecord r).timePeriod = "Early Morning (0-6)" ∨
        (deriveRecord r).timePeriod = "Morning (6-12)" ∨
        (deriveRecord r).timePeriod = "Afternoon (12-18)" ∨
        (deriveRecord r).timePeriod = "Night (18-24)") ∧
    timePeriod none = "Night (18-24)" ∧
    (∀ h : Int, ¬(0 ≤ h ∧ h < 6) → ¬(6 ≤ h ∧ h < 12) → ¬(12 ≤ h ∧ h < 18) →
      timePeriod (some h) = "Night (18-24)") := by
  refine ⟨fun r => ?_, rfl, fun h h1 h2 h3 => ?_⟩
  · have hd : (deriveRecord r).timePeriod = timePeriod (r.date.map Timestamp.hour) := rfl
    rw [hd]
    cases r.date.map Timestamp.hour with
    | none => right; right; right; rfl
    | some h =>
      simp only [timePeriod]
      split_ifs <;> simp
  · simp only [timePeriod]
    rw [if_neg h1, if_neg h2, if_neg h3]

/-- C9 witness: the out-of-range hour 30 and every raw record fall into a
bucket; the unmatched input lands in the catch-all. -/
theorem C9_witness :
    timePeriod (some 30) = "Night (18-24)" ∧
    ((deriveRecord (mkRaw none "THEFT" true)).timePeriod = "Early Morning (0-6)" ∨
     (deriveRecord (mkRaw none "THEFT" true)).timePeriod = "Morning (6-12)" ∨
     (deriveRecord (mkRaw none "THEFT" true)).timePeriod = "Afternoon (12-18)" ∨
     (deriveRecord (mkRaw none "THEFT" true)).timePeriod = "Night (18-24)") :=
  ⟨C9_timePeriod_total.2.2 30 (by decide) (by decide) (by decide),
   C9_timePeriod_total.1 (mkRaw none "THEFT" true)⟩

/-- C6: filtering by a year range is idempotent — filtering an
already-filtered table with the same bounds changes nothing. -/
theorem C6_filter_idempotent (df : List Record) (a b : Int) (_hab : a ≤ b) :
    filtered_df (filtered_df df a b) a b = filtered_df df a b := by
  unfold filtered_df
  rw [List.filter_filter]
  congr 1
  funext r
  rw [Bool.and_self]

/-- C6 witness: idempotence at the 3-row scenario table and range 2020-2020. -/
theorem C6_witness :
    filtered_df (filtered_df (load_data scenarioRows) 2020 2020) 2020 2020 =
      filtered_df (load_data scenarioRows) 2020 2020 :=
  C6_filter_idempotent (load_data scenarioRows) 2020 2020 (by decide)

/-- C10: called with crossed bounds (`minYear > maxYear`), the year filter
returns the empty table rather than erroring: no `Year` — defined or `NaN` —
passes both inclusive bounds. -/
theorem C10_crossed_bounds_empty (df : List Record) (a b : Int) (hba : b < a) :
    filtered_df df a b = [] := by
  unfold filtered_df
  rw [List.filter_eq_nil_iff]
  intro r _
  cases hy : r.year with
  | none => simp [yearGe, hy]
  | some y => simp only [yearGe, yearLe, hy, Bool.and_eq_true, decide_eq_true_eq]; omega

/-- A row that passes the year filter has a defined `Year` within the bounds
and comes from the input table. -/
lemma mem_filtered_year {df : List Record} {a b : Int} {r : Record}
    (hr : r ∈ filtered_df df a b) :
    ∃ y : Int, r.year = some y ∧ a ≤ y ∧ y ≤ b ∧ r ∈ df := by
  unfold filtered_df at hr
  obtain ⟨hmem, hp⟩ := List.mem_filter.mp hr
  cases hy : r.year with
  | none => rw [hy] at hp; simp [yearGe] at hp
  | some y =>
    rw [hy] at hp
    simp only [yearGe, yearLe, Bool.and_eq_true, decide_eq_true_eq] at hp
    exact ⟨y, rfl, hp.1, hp.2, hmem⟩

/-- The grouping/sorting contract of `value_counts().sort_index()` on a table
all of whose rows have a defined `Year`. -/
lemma y_counts_spec (F : List Record) (hyear : ∀ r ∈ F, r.year.isSome) :
    ((y_counts F).map Prod.fst).Sorted (· ≤ ·) ∧
    ((y_counts F).map Prod.fst).Nodup ∧
    (∀ p ∈ y_counts F,
        p.2 = F.countP (fun r => decide (r.year = some p.1)) ∧ 0 < p.2) ∧
    (∀ y : Int, y ∈ (y_counts F).map Prod.fst ↔ ∃ r ∈ F, r.year = some y) ∧
    ((y_counts F).map Prod.snd).sum = F.length := by
  have hfst : (y_counts F).map Prod.fst =
      List.insertionSort (· ≤ ·) (F.filterMap Record.year).dedup := by
    unfold y_counts; rw [List.map_map]; exact List.map_id _
  refine ⟨?_, ?_, ?_, ?_, ?_⟩
  · rw [hfst]; exact List.sorted_insertionSort _ _
  · rw [hfst]
    exact ((List.perm_insertionSort _ _).nodup_iff).mpr (List.nodup_dedup _)
  · intro p hp
    unfold y_counts at hp
    obtain ⟨y, hy, rfl⟩ := List.mem_map.mp hp
    refine ⟨rfl, ?_⟩
    rw [List.mem_insertionSort, List.mem_dedup, List.mem_filterMap] at hy
    obtain ⟨r, hrF, hry⟩ := hy
    exact List.countP_pos_iff.mpr ⟨r, hrF, by simp [hry]⟩
  · intro y
    rw [hfst]
    simp only [List.mem_insertionSort, List.mem_dedup, List.mem_filterMap]
  · have hsnd : (y_counts F).map Prod.snd =
        (List.insertionSort (· ≤ ·) (F.filterMap Record.year).dedup).map
          (fun y => F.countP (fun r => decide (r.year = some y))) := by
      unfold y_counts; rw [List.map_map]; rfl
    rw [hsnd, ((List.perm_insertionSort _ _).map _).sum_eq]
    have hkey := sum_countP_partition (fun r : Record => r.year)
        (((F.filterMap Record.year).dedup).map some)
        (List.Nodup.map (Option.some_injective _) (List.nodup_dedup _)) F ?_
    · rw [List.map_map] at hkey
      simpa [Function.comp] using hkey
    · intro r hrF
      obtain ⟨y, hy⟩ := Option.isSome_iff_exists.mp (hyear r hrF)
      exact List.mem_map.mpr
        ⟨y, List.mem_dedup.mpr (List.mem_filterMap.mpr ⟨r, hrF, hy⟩), hy.symm⟩

/-- C5: the yearly-counts aggregator over any filtered table groups the rows
by `Year` (each listed year is present, appears once, and carries the count
of its rows), returns the pairs sorted ascending by year, and the counts sum
to the total row count of the filtered set. -/
theorem C5_yearly_counts (df : List Record) (a b : Int) :
    ((y_counts (filtered_df df a b)).map Prod.fst).Sorted (· ≤ ·) ∧
    ((y_counts (filtered_df df a b)).map Prod.fst).Nodup ∧
    (∀ p ∈ y_counts (filtered_df df a b),
        p.2 = (filtered_df df a b).countP (fun r => decide (r.year = some p.1)) ∧
        0 < p.2) ∧
    (∀ y : Int, y ∈ (y_counts (filtered_df df a b)).map Prod.fst ↔
        ∃ r ∈ filtered_df df a b, r.year = some y) ∧
    ((y_counts (filtered_df df a b)).map Prod.snd).sum =
      (filtered_df df a b).length :=
  y_counts_spec (filtered_df df a b) (fun r hr => by
    obtain ⟨y, hy, -, -, -⟩ := mem_filtered_year hr
    simp [hy])

/-- C5 witness: on the 3-row scenario table filtered to 2020-2020, the pair
(2020, 2) is listed and the counts sum to the 2 rows of the filtered set. -/
theorem C5_witness :
    ((2020, 2) : Int × Nat).2 =
      (filtered_df (load_data scenarioRows) 2020 2020).countP
        (fun r => decide (r.year = some ((2020, 2) : Int × Nat).1)) ∧
    ((y_counts (filtered_df (load_data scenarioRows) 2020 2020)).map Prod.snd).sum =
      (filtered_df (load_data scenarioRows) 2020 2020).length :=
  ⟨((C5_yearly_counts (load_data scenarioRows) 2020 2020).2.2.1 (2020, 2)
      (by decide)).1,
   (C5_yearly_counts (load_data scenarioRows) 2020 2020).2.2.2.2⟩

/-- C7: on an empty filtered set, every aggregator returns an empty or
degenerate result and none errors: the yearly counts, district counts and
arrest rates are empty sequences, the geo sampler returns `ok []` (the only
aggregator that can error at all, per C3), and the crosstab and pivot have
no rows, columns or mass. -/
theorem C7_empty_aggregators (df : List Record) (a b : Int)
    (h : filtered_df df a b = []) :
    y_counts (filtered_df df a b) = [] ∧
    d_counts (filtered_df df a b) = [] ∧
    map_df (filtered_df df a b) = Except.ok [] ∧
    arrest_rate (filtered_df df a b) = [] ∧
    ct_time_rowLabels (filtered_df df a b) = [] ∧
    ct_time_colLabels (filtered_df df a b) = [] ∧
    (∀ t p : String, ct_time_cell (filtered_df df a b) t p = 0) ∧
    pivotKeys (filtered_df df a b) = [] ∧
    pivotTypes (filtered_df df a b) = [] := by
  rw [h]
  exact ⟨rfl, rfl, rfl, rfl, rfl, rfl, fun t p => rfl, rfl, rfl⟩

/-- C7 witness: a range above every year of the scenario table filters to
the empty set, on which the geo sampler returns `ok []`. -/
theorem C7_witness :
    map_df (filtered_df (load_data scenarioRows) 2030 2035) = Except.ok [] :=
  (C7_empty_aggregators (load_data scenarioRows) 2030 2035 (by decide)).2.2.1

/-- C8: in the co-occurrence matrix, every correlation cell involving a
`PrimaryType` whose pivot count column has zero variance — in either
position, the diagonal included — is the explicit undefined (`NaN`) value
`none`, never a substituted zero; the computation is a total function, so it
cannot crash. -/
theorem C8_zero_variance_nan (df : List Record) (t u : String)
    (h : varSum (typeColumn df t) = 0) :
    corr_matrix_cell df t u = none ∧ corr_matrix_cell df u t = none := by
  unfold corr_matrix_cell corrCell
  exact ⟨if_pos (Or.inl h), if_pos (Or.inr h)⟩

/-- C8 witness: in the 1-row table the "A" column is the constant `[1]`,
its variance sum is 0, and both cells pairing "A" with "B" are `none`. -/
theorem C8_witness :
    corr_matrix_cell constPivotRows "A" "B" = none ∧
    corr_matrix_cell constPivotRows "B" "A" = none :=
  C8_zero_variance_nan constPivotRows "A" "B" (by
    have h : typeColumn constPivotRows "A" = [1] := by decide
    rw [h]; norm_num [varSum, covSum, qmean])

/-- C3 (code bug): the geo sampler sizes its sample by
`min(20000, len(filtered_df))` — the row count BEFORE dropping rows with
missing coordinates — but samples from the frame after the drop; on a 2-row
table whose second row lacks a `Latitude` it asks the 1-row population for 2
rows and `DataFrame.sample` raises, where the claim (and spec §4.4) says all
remaining rows are returned and no error is possible. -/
theorem C3_geo_sample_error : map_df geoBugRows = Except.error sampleError := rfl

/-- C2 counterexample: on the 12-row table (one "X" row, then eleven "Y"
rows, all in the same period), the crosstab restricted to the 10 most
frequent types would count all 11 "Y" rows, but the code's
`head(10)`-crosstab counts only the 9 "Y" rows among the first 10 rows — the
cell is computed from a positional prefix, not from the top-10 types. -/
theorem C2_counterexample :
    ct_time_cell (load_data prefixRows) "Y" "Early Morning (0-6)" = 9 ∧
    ct_time_spec_cell (load_data prefixRows) "Y" "Early Morning (0-6)" = 11 ∧
    ct_time_cell (load_data prefixRows) "Y" "Early Morning (0-6)" ≠
      ct_time_spec_cell (load_data prefixRows) "Y" "Early Morning (0-6)" :=
  ⟨by decide, by decide, by decide⟩

/-- C2 (amended): the type-by-period crosstab is computed over the first
`min(10, n)` rows of the filtered table — a positional prefix, not the 10
most frequent `PrimaryType` values — with each cell the count of prefix rows
with that (type, period) pair; the cells over the occurring pairs therefore
total `min(10, n)`, and the computation is deterministic (a pure function of
the input). -/
theorem C2_prefix_crosstab (df : List Record) :
    (∀ t p : String, ct_time_cell df t p =
      (df.take 10).countP (fun r => decide (r.primaryType = t ∧ r.timePeriod = p))) ∧
    ((((df.take 10).map (fun r => (r.primaryType, r.timePeriod))).dedup).map
        (fun q => ct_time_cell df q.1 q.2)).sum = min 10 df.length := by
  refine ⟨fun t p => rfl, ?_⟩
  have hkey := sum_countP_partition
      (fun r : Record => (r.primaryType, r.timePeriod))
      (((df.take 10).map (fun r => (r.primaryType, r.timePeriod))).dedup)
      (List.nodup_dedup _) (df.take 10)
      (fun x hx => List.mem_dedup.mpr (List.mem_map.mpr ⟨x, hx, rfl⟩))
  rw [List.length_take] at hkey
  rw [← hkey]
  congr 1
  refine List.map_congr_left (fun q hq => ?_)
  unfold ct_time_cell
  refine List.countP_congr (fun r _ => ?_)
  simp [Prod.ext_iff]

/-- C1 counterexample: for the record with the unparsable `Date`, the spec's
rule assigns no `TimePeriod` (undefined, `none`), but the code's derivation
assigns the concrete bucket `"Night (18-24)"` — the claim that the derived
`TimePeriod` of such a record is undefined is false. -/
theorem C1_counterexample :
    timePeriodSpec ((mkRaw none "THEFT" true).date.map Timestamp.hour) = none ∧
    (deriveRecord (mkRaw none "THEFT" true)).timePeriod = "Night (18-24)" ∧
    some ((deriveRecord (mkRaw none "THEFT" true)).timePeriod) ≠
      timePeriodSpec ((mkRaw none "THEFT" true).date.map Timestamp.hour) :=
  ⟨rfl, rfl, by decide⟩

/-- C1 (amended): for every record whose `Date` fails to parse, the derived
`TimePeriod` is the catch-all bucket `"Night (18-24)"` — not undefined — but
such records are still excluded from every aggregation, because every
aggregator runs on the filtered frame and an undefined `Year` fails the
year-range test; for the 3-row scenario table over range (2020, 2020),
`arrest_rate` returns exactly Early Morning ↦ 100.0 and Afternoon ↦ 0.0 and
no other period. -/
theorem C1_unparsable_date_excluded :
    (∀ r : RawRecord, r.date = none →
      (deriveRecord r).timePeriod = "Night (18-24)") ∧
    (∀ (rows : List RawRecord) (a b : Int) (r : Record),
      r ∈ filtered_df (load_data rows) a b → r.date.isSome) ∧
    arrest_rate (filtered_df (load_data scenarioRows) 2020 2020) =
      [("Afternoon (12-18)", 0), ("Early Morning (0-6)", 100)] := by
  refine ⟨fun r h => ?_, fun rows a b r hr => ?_, ?_⟩
  · unfold deriveRecord
    rw [h]
    rfl
  · obtain ⟨y, hy, -, -, hmem⟩ := mem_filtered_year hr
    obtain ⟨r0, -, rfl⟩ := List.mem_map.mp hmem
    unfold deriveRecord at hy ⊢
    simp only at hy ⊢
    cases hd : r0.date with
    | none => rw [hd] at hy; cases hy
    | some ts => rfl
  · norm_num +decide [arrest_rate, filtered_df, load_data, scenarioRows, mkRaw,
      deriveRecord, timePeriod, yearGe, yearLe, strLe, charListLe, List.dedup]

/-- C1 witness: the unparsable-date record gets the catch-all bucket, and a
concrete parsed row of the filtered scenario table has a defined `Date`. -/
theorem C1_witness :
    (deriveRecord (mkRaw none "THEFT" true)).timePeriod = "Night (18-24)" ∧
    (deriveRecord (mkRaw (some ⟨2020, 1, 2⟩) "THEFT" true)).date.isSome :=
  ⟨C1_unparsable_date_excluded.1 (mkRaw none "THEFT" true) rfl,
   C1_unparsable_date_excluded.2.1 scenarioRows 2020 2020
     (deriveRecord (mkRaw (some ⟨2020, 1, 2⟩) "THEFT" true)) (by decide)⟩

/-- C10 witness: filtering the scenario table with the crossed bounds
(2025, 2015) yields the empty table. -/
theorem C10_witness : filtered_df (load_data scenarioRows) 2025 2015 = [] :=
  C10_crossed_bounds_empty (load_data scenarioRows) 2025 2015 (by decide)
